import Mathlib

/-!
Verification of the pluggable command-dispatch shell
(`app/commands/__inti__.py`): command registry, plugin discovery and the
interactive dispatch loop, embedded shallowly.

Conventions of the embedding:
* A Python value of class `Command` is determined by the behaviour of its
  no-argument `execute()` method: it either returns a string or raises an
  exception.  We model that behaviour as `Except ExecErr String`.
* The Python `dict` held in `CommandHandler.commands` is modelled as an
  association list with unique keys kept in insertion order; `d[k] = v`
  replaces an existing binding in place or appends a fresh one
  (`dictSet`), and `d.get(k)` is the first (unique) matching binding
  (`dictGet`).
* Raising an exception is modelled by returning `Except.error`; a caller
  that does not catch it propagates the `error` value unchanged.
* Calls to `logging.info/warning/error` are modelled by accumulating
  `LogEvent` values.
* Module-level effects of `importlib.import_module` and the member list
  produced by `dir(plugin_module)` are inputs of the discovery functions:
  each candidate sub-package carries the outcome its import would have,
  and a loaded module carries its members in `dir()` order (alphabetical
  attribute names, as CPython produces).
-/

/-- The payload of a raised Python exception from a command's `execute()`:
the exception class name and its message. -/
structure ExecErr where
  name : String
  msg : String
deriving DecidableEq, Repr

deriving instance DecidableEq for Except

/-- A command instance.  The abstract class `Command` in the source has a
single abstract method `execute(self)`; a concrete command's observable
behaviour is the outcome of that call. -/
structure Command where
  execute : Except ExecErr String
deriving DecidableEq, Repr

/-- Severities used by the source (`logging.info/warning/error`). -/
inductive LogLevel
  | info
  | warning
  | error
deriving DecidableEq, Repr

/-- One emitted log record. -/
structure LogEvent where
  level : LogLevel
  msg : String
deriving DecidableEq, Repr

/-- Python `d.get(k)`: the binding for `k`, if any.  Keys are unique, so
taking the first match is exact. -/
def dictGet : List (String × Command) → String → Option Command
  | [], _ => none
  | (k, v) :: rest, operation => if k = operation then some v else dictGet rest operation

/-- Python `d[k] = v`: replace an existing binding for `k` in place
(keeping its position, as a CPython dict does) or append a fresh one. -/
def dictSet : List (String × Command) → String → Command → List (String × Command)
  | [], k, v => [(k, v)]
  | (k', v') :: rest, k, v =>
    if k' = k then (k, v) :: rest else (k', v') :: dictSet rest k v

/-- `CommandHandler.__init__` makes `self.commands = {}`; the state of a
handler is that dict. -/
structure CommandHandler where
  commands : List (String × Command)
deriving DecidableEq, Repr

/-- `CommandHandler.register_command(self, operation, command)`:
`self.commands[operation] = command`. -/
def register_command (h : CommandHandler) (operation : String) (command : Command) :
    CommandHandler :=
  ⟨dictSet h.commands operation command⟩

/-- `CommandHandler.execute_command(self, operation)` in state-passing
form: the method writes nothing to `self.commands`, so the handler
component of the result is the input handler.  When the operation is
bound, the source returns `command.execute()` directly — with no
`try`/`except` around it, so an exception raised by `execute()`
propagates to the caller (the `Except.error` case).  When it is unbound,
the source logs an error and returns the message string normally. -/
def execute_command (h : CommandHandler) (operation : String) :
    CommandHandler × List LogEvent × Except ExecErr String :=
  match dictGet h.commands operation with
  | some command => (h, [], command.execute)
  | none =>
    let error_message := "No such command: " ++ operation
    (h, [⟨LogLevel.error, error_message⟩], Except.ok error_message)

/-! ### Plugin discovery (`App.load_plugins` / `App.register_plugin_commands`) -/

/-- One exported member of a loaded plugin module, as seen by the scan
`for item_name in dir(plugin_module)`.  The source keeps an item exactly
when `isinstance(item, type) and issubclass(item, Command) and
item is not Command`:
* `commandClass c` — a concrete subclass of `Command`; instantiating it
  with no arguments (`item()`) yields the command instance `c`;
* `commandBase` — the abstract `Command` class itself, excluded by the
  `item is not Command` test;
* `nonType` — any other attribute (function, constant, non-`Command`
  class, ...), excluded by the first two tests. -/
inductive Member
  | commandClass (c : Command)
  | commandBase
  | nonType
deriving DecidableEq, Repr

/-- A successfully imported plugin module: its members in `dir()` order. -/
structure PluginModule where
  members : List Member
deriving DecidableEq, Repr

/-- The kind of exception raised by a failed `importlib.import_module`:
`except ImportError` in the source catches `ImportError` (including its
subclass `ModuleNotFoundError`) and nothing else, so the distinction that
matters is `ImportError` versus everything else (e.g. a `SyntaxError`
from a malformed module body). -/
inductive ExcKind
  | importError
  | otherError
deriving DecidableEq, Repr

/-- A raised import-time exception. -/
structure PyExc where
  kind : ExcKind
  msg : String
deriving DecidableEq, Repr

/-- One candidate found by `pkgutil.iter_modules([plugins_path])`: its
name, whether it is a package (`is_pkg`), and what importing it would
produce. -/
structure PluginEntry where
  name : String
  is_pkg : Bool
  import_result : Except PyExc PluginModule
deriving DecidableEq, Repr

/-- The designated plugin root `app/plugins`: whether
`os.path.exists(plugins_path)` holds, and the iteration order of
`pkgutil.iter_modules`. -/
structure PluginsRoot where
  dirExists : Bool
  entries : List PluginEntry
deriving DecidableEq, Repr

/-- The loop body of `App.register_plugin_commands(self, plugin_module,
plugin_name)`: walk `dir(plugin_module)`, and for every member passing
the `isinstance`/`issubclass`/`is not Command` test, run
`self.command_handler.register_command(plugin_name, item())` and log the
registration message (the source's f-string interpolates `plugin_name`
twice).  All qualifying members are registered under the same key
`plugin_name`, so later ones overwrite earlier ones. -/
def register_plugin_commands_go (h : CommandHandler) (logs : List LogEvent)
    (plugin_name : String) : List Member → CommandHandler × List LogEvent
  | [] => (h, logs)
  | Member.commandClass c :: rest =>
    register_plugin_commands_go (register_command h plugin_name c)
      (logs ++ [⟨LogLevel.info,
        "Command '" ++ plugin_name ++ "' from plugin '" ++ plugin_name ++ "' registered."⟩])
      plugin_name rest
  | _ :: rest => register_plugin_commands_go h logs plugin_name rest

/-- `App.register_plugin_commands` itself, starting from handler `h`. -/
def register_plugin_commands (h : CommandHandler) (plugin_module : PluginModule)
    (plugin_name : String) : CommandHandler × List LogEvent :=
  register_plugin_commands_go h [] plugin_name plugin_module.members

/-- The `for _, plugin_name, is_pkg in pkgutil.iter_modules(...)` loop of
`App.load_plugins`: non-packages are skipped; a package is imported, and
on success its commands are registered; `except ImportError` catches
only import errors (logging them and continuing), so any other exception
raised by the import propagates and aborts the whole pass
(the `Except.error` outcome). -/
def load_plugins_go (h : CommandHandler) (logs : List LogEvent) :
    List PluginEntry → Except PyExc (CommandHandler × List LogEvent)
  | [] => Except.ok (h, logs)
  | e :: rest =>
    if e.is_pkg then
      match e.import_result with
      | Except.ok m =>
        let p := register_plugin_commands h m e.name
        load_plugins_go p.1 (logs ++ p.2) rest
      | Except.error exc =>
        match exc.kind with
        | ExcKind.importError =>
          load_plugins_go h
            (logs ++ [⟨LogLevel.error,
              "Error importing plugin " ++ e.name ++ ": " ++ exc.msg⟩]) rest
        | ExcKind.otherError => Except.error exc
    else load_plugins_go h logs rest

/-- `App.load_plugins(self)`: if the plugin root `app/plugins` does not
exist, log a warning and return with the registry untouched; otherwise
scan the discovered entries. -/
def load_plugins (h : CommandHandler) (root : PluginsRoot) :
    Except PyExc (CommandHandler × List LogEvent) :=
  if root.dirExists then
    load_plugins_go h [] root.entries
  else
    Except.ok (h, [⟨LogLevel.warning, "Plugins directory 'app/plugins' not found."⟩])

/-- The number of members of a module that pass the command-class test. -/
def qualifyingCount : List Member → Nat
  | [] => 0
  | Member.commandClass _ :: rest => qualifyingCount rest + 1
  | _ :: rest => qualifyingCount rest

/-- The instance of the last qualifying command class in `dir()` order,
if any. -/
def lastQualifying : List Member → Option Command
  | [] => none
  | Member.commandClass c :: rest =>
    match lastQualifying rest with
    | some c' => some c'
    | none => some c
  | _ :: rest => lastQualifying rest

/-! ### Dispatch loop (`App.start`) -/

/-- Python `s.strip()`: remove leading and trailing whitespace. -/
def pyStrip (s : String) : String :=
  ⟨(((s.data.dropWhile Char.isWhitespace).reverse.dropWhile Char.isWhitespace).reverse)⟩

/-- Python `s.lower()`: lowercase every character. -/
def pyLower (s : String) : String :=
  ⟨s.data.map Char.toLower⟩

/-- One event observed by the blocking `input(">>> ")` call: either a
line of text arrives, or a `KeyboardInterrupt` is raised by an operator
interrupt during the read. -/
inductive InputEvent
  | line (s : String)
  | interrupt
deriving DecidableEq, Repr

/-- How the process run ends: `exited code` for a clean `sys.exit(code)`
(the raised `SystemExit` passes the `except KeyboardInterrupt` clause
untouched, runs the `finally` block and terminates the interpreter with
that status), or `crashed excName` when an exception of class `excName`
propagates out of the `try` statement unhandled, which terminates the
process abnormally (nonzero status) after the `finally` block runs. -/
inductive RunOutcome
  | exited (code : Nat)
  | crashed (excName : String)
deriving DecidableEq, Repr

/-- The observable run of the dispatch loop: its outcome, what was
printed to stdout by `print(result)`, and the log records emitted from
inside the `try` statement onwards. -/
structure RunResult where
  outcome : RunOutcome
  printed : List String
  logs : List LogEvent
deriving DecidableEq, Repr

/-- The `try`/`except KeyboardInterrupt`/`finally` statement of
`App.start`, driven by the stream of input events:
* a line is stripped; if it case-insensitively equals `exit` the source
  logs and calls `sys.exit(0)` (the registry is never consulted);
  otherwise `execute_command` runs on the stripped text — a string
  result is printed and the loop continues, while an exception raised by
  the command propagates out of the `try` (it is not a
  `KeyboardInterrupt`) and crashes the process;
* a `KeyboardInterrupt` is caught once, an informational message is
  logged, and then the handler's `ys.exit(0)` raises `NameError` (the
  name `ys` is undefined), which crashes the process;
* exhausting stdin makes `input()` raise `EOFError`, which is uncaught.
In every case the `finally` block logs "Application shutdown.". -/
def start_loop (h : CommandHandler) : List InputEvent → RunResult
  | [] => ⟨RunOutcome.crashed "EOFError", [], [⟨LogLevel.info, "Application shutdown."⟩]⟩
  | InputEvent.line s :: rest =>
    let cmd_input := pyStrip s
    if pyLower cmd_input = "exit" then
      ⟨RunOutcome.exited 0, [],
        [⟨LogLevel.info, "Application exit."⟩, ⟨LogLevel.info, "Application shutdown."⟩]⟩
    else
      match execute_command h cmd_input with
      | (h', logs₁, Except.ok result) =>
        let r := start_loop h' rest
        ⟨r.outcome, result :: r.printed, logs₁ ++ r.logs⟩
      | (_, logs₁, Except.error e) =>
        ⟨RunOutcome.crashed e.name, [], logs₁ ++ [⟨LogLevel.info, "Application shutdown."⟩]⟩
  | InputEvent.interrupt :: _ =>
    ⟨RunOutcome.crashed "NameError", [],
      [⟨LogLevel.info, "Application interrupted and exiting gracefully."⟩,
        ⟨LogLevel.info, "Application shutdown."⟩]⟩

/-! ### Concrete instances used by counterexamples and witnesses -/

/-- A command whose `execute()` raises. -/
def cBoom : Command := ⟨Except.error ⟨"ExecutionError", "kaboom"⟩⟩

/-- A handler with the raising command registered under `"boom"`. -/
def hBoom : CommandHandler := ⟨[("boom", cBoom)]⟩

/-- A command whose `execute()` returns `"hello"`. -/
def cHello : Command := ⟨Except.ok "hello"⟩

/-- A second distinguishable command. -/
def cHowdy : Command := ⟨Except.ok "howdy"⟩

/-- A valid plugin module exporting one concrete command class. -/
def goodModule : PluginModule := ⟨[Member.commandClass cHello]⟩

/-- A plugin module exporting two concrete command classes (plus the
re-exported abstract base, which discovery must skip). -/
def twoCommandModule : PluginModule :=
  ⟨[Member.commandClass cHello, Member.commandBase, Member.commandClass cHowdy]⟩

/-- A sub-package whose import raises a non-`ImportError` exception, as a
syntax defect in the module body does. -/
def badEntry : PluginEntry :=
  ⟨"badplug", true, Except.error ⟨ExcKind.otherError, "invalid module code"⟩⟩

/-- A loadable, valid sub-package. -/
def goodEntry : PluginEntry := ⟨"goodplug", true, Except.ok goodModule⟩

/-- A plugin root holding the unloadable sub-package before the valid
one. -/
def rootBadThenGood : PluginsRoot := ⟨true, [badEntry, goodEntry]⟩

/-- A handler with a command registered under the empty-string key. -/
def hEmptyKey : CommandHandler := ⟨[("", ⟨Except.ok "empty key dispatched"⟩)]⟩

/-- A handler with a command registered under the key `exit`. -/
def hExitKey : CommandHandler := ⟨[("exit", cHello)]⟩

/-! ### Dictionary lemmas -/

theorem dictGet_dictSet_self (l : List (String × Command)) (k : String) (v : Command) :
    dictGet (dictSet l k v) k = some v := by
  induction l with
  | nil => simp [dictGet, dictSet]
  | cons hd tl ih =>
    obtain ⟨k', v'⟩ := hd
    by_cases hk : k' = k
    · simp [dictGet, dictSet, hk]
    · simp [dictGet, dictSet, hk, ih]

theorem dictSet_dictSet_same (l : List (String × Command)) (k : String) (a b : Command) :
    dictSet (dictSet l k a) k b = dictSet l k b := by
  induction l with
  | nil => simp [dictSet]
  | cons hd tl ih =>
    obtain ⟨k', v'⟩ := hd
    by_cases hk : k' = k
    · simp [dictSet, hk]
    · simp [dictSet, hk, ih]

/-- The registry contents produced by a member scan: nothing when no
member qualifies, otherwise a single write of the last qualifying
instance under the plugin's name. -/
theorem register_plugin_commands_go_commands (plugin_name : String) :
    ∀ (ms : List Member) (h : CommandHandler) (logs : List LogEvent),
      (register_plugin_commands_go h logs plugin_name ms).1.commands =
        match lastQualifying ms with
        | none => h.commands
        | some c => dictSet h.commands plugin_name c := by
  intro ms
  induction ms with
  | nil => intro h logs; rfl
  | cons mem rest ih =>
    intro h logs
    cases mem with
    | commandClass c =>
      rw [register_plugin_commands_go, ih, lastQualifying]
      cases hq : lastQualifying rest with
      | none => simp [register_command]
      | some c' => simp [register_command, dictSet_dictSet_same]
    | commandBase => exact ih h logs
    | nonType => exact ih h logs

/-! ### Registry claims -/

/-- Claim C4: registering a command under a key and then dispatching that
key (with no intervening registration under the same key) invokes exactly
that command and returns its textual result as the success outcome, with
nothing logged by the registry. -/
theorem c4_register_dispatch_success (h : CommandHandler) (key : String)
    (c : Command) (s : String) (hc : c.execute = Except.ok s) :
    execute_command (register_command h key c) key =
      (register_command h key c, [], Except.ok s) := by
  simp [execute_command, register_command, dictGet_dictSet_self, hc]

/-- Witness for C4 at a concrete handler, key and command. -/
theorem c4_witness :
    cHello.execute = Except.ok "hello" ∧
    execute_command (register_command ⟨[]⟩ "greet" cHello) "greet" =
      (register_command ⟨[]⟩ "greet" cHello, [], Except.ok "hello") :=
  ⟨rfl, c4_register_dispatch_success ⟨[]⟩ "greet" cHello "hello" rfl⟩

/-- Claim C5: registering two commands under the same key leaves only the
second bound (last-write-wins; `register_command` is total, so no
duplicate-key error can be raised), and a subsequent dispatch of the key
returns exactly the second command's outcome. -/
theorem c5_last_write_wins (h : CommandHandler) (key : String) (c₁ c₂ : Command) :
    dictGet (register_command (register_command h key c₁) key c₂).commands key = some c₂ ∧
    execute_command (register_command (register_command h key c₁) key c₂) key =
      (register_command (register_command h key c₁) key c₂, [], c₂.execute) := by
  constructor
  · simp [register_command, dictSet_dictSet_same, dictGet_dictSet_self]
  · simp [execute_command, register_command, dictSet_dictSet_same, dictGet_dictSet_self]

/-- Claim C6: dispatching a key that was never registered invokes no
command, logs one error-severity event, and returns the descriptive
"No such command" message naming the key as an ordinary value. -/
theorem c6_not_found_message (h : CommandHandler) (key : String)
    (hmiss : dictGet h.commands key = none) :
    execute_command h key =
      (h, [⟨LogLevel.error, "No such command: " ++ key⟩],
        Except.ok ("No such command: " ++ key)) := by
  simp [execute_command, hmiss]

/-- Witness for C6 on the empty registry. -/
theorem c6_witness :
    dictGet (⟨[]⟩ : CommandHandler).commands "unknown_key" = none ∧
    execute_command ⟨[]⟩ "unknown_key" =
      (⟨[]⟩, [⟨LogLevel.error, "No such command: unknown_key"⟩],
        Except.ok ("No such command: " ++ "unknown_key")) :=
  ⟨rfl, c6_not_found_message ⟨[]⟩ "unknown_key" rfl⟩

/-- Claim C1 counterexample: dispatching the key of a registered command
whose `execute()` raises does NOT catch the error, logs nothing, and
returns no value — the exception propagates out of `execute_command`
(the `Except.error` outcome), because the source calls
`command.execute()` with no surrounding `try`/`except`. -/
theorem c1_counterexample :
    execute_command hBoom "boom" =
      (hBoom, [], Except.error ⟨"ExecutionError", "kaboom"⟩) := rfl

/-- Claim C1 as amended: when a registered command's `execute()` raises,
dispatch propagates the exception unchanged to its caller, emitting no
registry log and returning no recovered value; only the not-found case is
handled locally. -/
theorem c1_amended_execute_error_propagates (h : CommandHandler) (key : String)
    (c : Command) (e : ExecErr) (hc : dictGet h.commands key = some c)
    (he : c.execute = Except.error e) :
    execute_command h key = (h, [], Except.error e) := by
  simp [execute_command, hc, he]

/-- Witness for the amended C1 at the concrete raising command. -/
theorem c1_witness :
    dictGet hBoom.commands "boom" = some cBoom ∧
    cBoom.execute = Except.error ⟨"ExecutionError", "kaboom"⟩ ∧
    execute_command hBoom "boom" =
      (hBoom, [], Except.error ⟨"ExecutionError", "kaboom"⟩) :=
  ⟨rfl, rfl, c1_amended_execute_error_propagates hBoom "boom" cBoom
    ⟨"ExecutionError", "kaboom"⟩ rfl rfl⟩

/-! ### Discovery claims -/

/-- Claim C8: a loadable sub-package exporting two or more qualifying
concrete command classes yields exactly one binding, keyed by the
sub-package's own name and bound to the instance of the last qualifying
class encountered during the member scan. -/
theorem c8_last_qualifying_single_binding (m : PluginModule) (plugin_name : String)
    (c : Command) (hcount : 2 ≤ qualifyingCount m.members)
    (hlast : lastQualifying m.members = some c) :
    (register_plugin_commands ⟨[]⟩ m plugin_name).1.commands = [(plugin_name, c)] := by
  rw [register_plugin_commands,
    register_plugin_commands_go_commands plugin_name m.members ⟨[]⟩ [], hlast]
  rfl

/-- Witness for C8: a module with two concrete command classes (and the
abstract base re-exported between them) binds only the second instance. -/
theorem c8_witness :
    2 ≤ qualifyingCount twoCommandModule.members ∧
    lastQualifying twoCommandModule.members = some cHowdy ∧
    (register_plugin_commands ⟨[]⟩ twoCommandModule "plug").1.commands =
      [("plug", cHowdy)] :=
  ⟨by decide, rfl,
    c8_last_qualifying_single_binding twoCommandModule "plug" cHowdy (by decide) rfl⟩

/-- Claim C2 counterexample: a plugin root whose first sub-package fails
to load with a non-`ImportError` exception (as a syntax defect does)
aborts the whole discovery pass — `load_plugins` propagates the
exception, and the valid sub-package listed after it is never
registered.  The source's `except ImportError` does not cover every
loading failure. -/
theorem c2_counterexample :
    load_plugins ⟨[]⟩ rootBadThenGood =
      Except.error ⟨ExcKind.otherError, "invalid module code"⟩ := rfl

/-- Claim C2 as amended: for a plugin root containing one sub-package
whose load fails with an `ImportError` (e.g. a missing dependency) and
one loadable valid sub-package, discovery logs the failure with the
failing sub-package's name and cause, registers zero bindings for it,
fully registers the valid sub-package, and does not abort the pass. -/
theorem c2_amended_import_error_skipped (h : CommandHandler)
    (badname msg goodname : String) (m : PluginModule) :
    load_plugins h ⟨true,
        [⟨badname, true, Except.error ⟨ExcKind.importError, msg⟩⟩,
         ⟨goodname, true, Except.ok m⟩]⟩ =
      Except.ok ((register_plugin_commands h m goodname).1,
        ⟨LogLevel.error, "Error importing plugin " ++ badname ++ ": " ++ msg⟩ ::
          (register_plugin_commands h m goodname).2) := rfl

/-! ### Dispatch-loop claims -/

/-- Claim C3, evaluating the code at its failing input: an operator
interrupt during the input read is caught once and logged, but the
handler's `ys.exit(0)` then raises `NameError` (`ys` is undefined in the
source), so after the `finally` block logs shutdown the process crashes
instead of exiting with status 0. -/
theorem c3_interrupt_crashes_with_name_error (h : CommandHandler) :
    start_loop h [InputEvent.interrupt] =
      ⟨RunOutcome.crashed "NameError", [],
        [⟨LogLevel.info, "Application interrupted and exiting gracefully."⟩,
          ⟨LogLevel.info, "Application shutdown."⟩]⟩ := rfl

/-- Claim C7: any input line whose trimmed text case-insensitively equals
`exit` terminates the loop with exit status 0, independent of the
registry's contents (no lookup is consulted, so a binding under the key
`exit` cannot shadow the sentinel) and of any later input; nothing is
printed after it. -/
theorem c7_exit_sentinel_priority (h : CommandHandler) (rest : List InputEvent)
    (s : String) (hs : pyLower (pyStrip s) = "exit") :
    start_loop h (InputEvent.line s :: rest) =
      ⟨RunOutcome.exited 0, [],
        [⟨LogLevel.info, "Application exit."⟩,
          ⟨LogLevel.info, "Application shutdown."⟩]⟩ := by
  simp [start_loop, hs]

/-- Witness for C7: ` Exit ` terminates even though a command is
registered under the key `exit` and more input follows. -/
theorem c7_witness :
    pyLower (pyStrip " Exit ") = "exit" ∧
    start_loop hExitKey [InputEvent.line " Exit ", InputEvent.line "greet"] =
      ⟨RunOutcome.exited 0, [],
        [⟨LogLevel.info, "Application exit."⟩,
          ⟨LogLevel.info, "Application shutdown."⟩]⟩ :=
  ⟨by decide,
    c7_exit_sentinel_priority hExitKey [InputEvent.line "greet"] " Exit " (by decide)⟩

/-- Claim C9 counterexample: a whitespace-only input line trims to the
empty string, which does not match the sentinel, so the loop DOES invoke
registry dispatch with the empty-string key — the command registered
under `""` executes and its result is printed. -/
theorem c9_counterexample :
    (start_loop hEmptyKey [InputEvent.line "   "]).printed =
      ["empty key dispatched"] := rfl

/-- Claim C9 as amended: the empty-string key is reachable from the
dispatch loop — any input line that trims to the empty string is
dispatched as the key `""`, and a command registered under it is looked
up and executed, its result printed. -/
theorem c9_amended_empty_key_dispatched (h : CommandHandler) (rest : List InputEvent)
    (s : String) (c : Command) (r : String) (hs : pyStrip s = "")
    (hc : dictGet h.commands "" = some c) (he : c.execute = Except.ok r) :
    (start_loop h (InputEvent.line s :: rest)).printed =
      r :: (start_loop h rest).printed := by
  have h0 : ¬ (pyLower "" = "exit") := by decide
  have hx : execute_command h "" = (h, [], Except.ok r) := by
    simp [execute_command, hc, he]
  simp [start_loop, hs, h0, hx]

/-- Witness for the amended C9 at a whitespace-only line. -/
theorem c9_witness :
    pyStrip "   " = "" ∧
    dictGet hEmptyKey.commands "" = some ⟨Except.ok "empty key dispatched"⟩ ∧
    (⟨Except.ok "empty key dispatched"⟩ : Command).execute =
      Except.ok "empty key dispatched" ∧
    (start_loop hEmptyKey [InputEvent.line "   "]).printed =
      "empty key dispatched" :: (start_loop hEmptyKey []).printed :=
  ⟨by decide, rfl, rfl,
    c9_amended_empty_key_dispatched hEmptyKey [] "   "
      ⟨Except.ok "empty key dispatched"⟩ "empty key dispatched" (by decide) rfl rfl⟩

/-- Claim C10: `execute_command` leaves the registry's key-to-command
mapping unchanged, whether the key is bound or not; the method only reads
`self.commands`, so the handler returned by the state-passing embedding is
the input handler. -/
theorem c10_dispatch_frame (h : CommandHandler) (operation : String) :
    (execute_command h operation).1 = h := by
  unfold execute_command
  cases dictGet h.commands operation <;> rfl
